import Mathlib

/-!
Verification of the reservation engine in `src/database.py` of
artifex-vertex-api (search, create_appointment, cancel_appointment,
get_appointment_by_id and their SQL statements), shallowly embedded in Lean.

The backing PostgreSQL store is modelled as an explicit `DB` record of table
rows.  Each top-level Python function becomes a pure Lean function from the
committed database state to (result, new committed state): SQL statements
inside a transaction update a pending copy of the state, a `commit` installs
the pending copy, and a `rollback` (every `except` branch of the source)
returns the original committed state unchanged.  Storage faults (lost
connectivity, constraint violations) that the Python code catches with
`except Exception` are modelled by an explicit `Fault` injection parameter:
`Fault.ok` is the fault-free execution, the other constructors make the
corresponding step raise, which lands in the `except` branch of the source.

Text is modelled as `List Char` (`Str`), so that Python's `.upper()/.strip()`
and SQL's `LOWER/TRIM/LIKE '%x%'` become executable list functions.
Timestamps (`NOW()`, dates, times) are modelled as naturals; `DB.clock` is
the transaction timestamp, advanced at each commit.
-/

abbrev Str := List Char

/-- Python `.upper()` on a string. -/
def upperStr (s : Str) : Str := s.map Char.toUpper

/-- Python `.strip()`: drops whitespace from both ends. -/
def pyStrip (s : Str) : Str :=
  (s.dropWhile Char.isWhitespace).rdropWhile Char.isWhitespace

/-- Python `a or b` for an optional string: `None` and `""` are falsy. -/
def pyOr (v : Option Str) (d : Str) : Str :=
  match v with
  | none => d
  | some s => if s = [] then d else s

/-- Python `int(s)` on a string, as a partial function: `none` models the
`ValueError` raised on non-numeric text (e.g. a UUID). -/
def natOfStr? (s : Str) : Option Nat :=
  if s ≠ [] ∧ s.all Char.isDigit then
    some (s.foldl (fun n c => 10 * n + (c.toNat - 48)) 0)
  else none

/-- The `appointmentstatus` enumeration of the store (a closed enum). -/
inductive AppointmentStatus where
  | CONFIRMED
  | CANCELLED
deriving DecidableEq

/-- Row of the `clinics` table (fields used by the engine).  Clinic ids are
UUID strings ("IMPORTANTE: clinic_id é UUID"). -/
structure Clinic where
  id : Str
  legal_name : Str
  address : Str
  city : Str
  state : Str
  phone : Str
deriving DecidableEq

/-- Row of the `doctors` table (fields used by the engine). -/
structure Doctor where
  id : Nat
  clinic_id : Str
  name : Str
  specialty : Str
  consultation_price : Nat
deriving DecidableEq

/-- Row of the `available_slots` table. -/
structure Slot where
  id : Nat
  doctor_id : Nat
  clinic_id : Str
  date : Nat
  time : Nat
  is_available : Bool
deriving DecidableEq

/-- Row of the `patients` table. -/
structure Patient where
  id : Nat
  name : Str
  cpf : Str
  date_of_birth : Str
  email : Str
  phone : Str
  insurance_type : Str
deriving DecidableEq

/-- Row of the `appointments` table. -/
structure Appointment where
  id : Nat
  patient_id : Nat
  doctor_id : Nat
  clinic_id : Option Str
  slot_id : Nat
  appointment_datetime : Option (Nat × Nat)
  insurance_type : Str
  insurance_plan_id : Option Nat
  status : AppointmentStatus
  created_at : Nat
  confirmed_at : Option Nat
  cancelled_at : Option Nat
  cancellation_reason : Option Str
deriving DecidableEq

/-- The committed database state: the five tables, the serial-id sequences
backing `RETURNING id`, and the transaction clock backing `NOW()`. -/
structure DB where
  clinics : List Clinic
  doctors : List Doctor
  slots : List Slot
  patients : List Patient
  appointments : List Appointment
  next_patient_id : Nat
  next_appointment_id : Nat
  clock : Nat
deriving DecidableEq

/-- The `patient_data` dict taken by `create_appointment`: `.get` on a
missing or null key yields `none`. -/
structure PatientData where
  name : Str
  cpf : Str
  date_of_birth : Str
  email : Option Str
  phone : Option Str
  insurance_type : Option Str
deriving DecidableEq

/-- The dict returned by `create_appointment`. -/
structure BookResult where
  status : Str
  appointment_id : Option Nat
  message : Str
deriving DecidableEq

/-- The dict returned by `cancel_appointment`. -/
structure CancelResult where
  status : Str
  message : Str
deriving DecidableEq

def strSuccess : Str := "success".toList

def strError : Str := "error".toList

def msgSlotUnavailable : Str := "Este horario nao esta mais disponivel.".toList

/-- Message prefix of the `except` branch of `create_appointment`
(`f"Erro ao agendar: {str(e)}"`; the exception text itself is elided). -/
def msgBookError : Str := "Erro ao agendar: ".toList

def msgConfirmedPrefix : Str := "Agendamento confirmado! ID: ".toList

def msgCancelNotFound : Str := "Agendamento não encontrado".toList

def msgCancelOk : Str := "Agendamento cancelado com sucesso".toList

/-- Fault-injection points for the storage operations that the Python
`try/except` around `create_appointment` can catch.  `ok` is the normal
execution; each other constructor raises at the corresponding step. -/
inductive Fault where
  | ok
  | atResolve
  | atInsert
  | atBlock
  | atCommit
deriving DecidableEq

/-- `'PARTICULAR'` (the spec's PRIVATE_PAY). -/
def particularStr : Str := "PARTICULAR".toList

/-- `valid_types = ['PARTICULAR', 'HEALTH_PLAN']`. -/
def validInsuranceTypes : List Str := ["PARTICULAR".toList, "HEALTH_PLAN".toList]

/-- The insurance normalisation shared by `_get_or_create_patient` and
`_insert_appointment`: falsy (`None`/`""`) defaults to `'PARTICULAR'`,
otherwise `.upper().strip()` is checked against the closed list and invalid
values fall back to `'PARTICULAR'`. -/
def normalizeInsurance (v : Option Str) : Str :=
  match v with
  | none => particularStr
  | some s =>
    if s = [] then particularStr
    else
      let u := pyStrip (upperStr s)
      if u ∈ validInsuranceTypes then u else particularStr

/-- The new-patient row built by `_get_or_create_patient` when the cpf lookup
misses: email defaults to `f"paciente_{cpf}@clinica.com"`, phone to `""`,
insurance to the normalised value; id comes from the serial sequence. -/
def mkNewPatient (db : DB) (pd : PatientData) : Patient :=
  { id := db.next_patient_id
    name := pd.name
    cpf := pd.cpf
    date_of_birth := pd.date_of_birth
    email := pyOr pd.email ("paciente_".toList ++ pd.cpf ++ "@clinica.com".toList)
    phone := pyOr pd.phone []
    insurance_type := normalizeInsurance pd.insurance_type }

/-- `_get_or_create_patient(cur, patient_data)`: `SELECT id FROM patients
WHERE cpf = %s`; on a hit return the existing id unchanged, on a miss
`INSERT ... RETURNING id`. -/
def getOrCreatePatient (db : DB) (pd : PatientData) : Nat × DB :=
  match db.patients.find? (fun p => p.cpf == pd.cpf) with
  | some p => (p.id, db)
  | none =>
    (db.next_patient_id,
      { db with
          patients := db.patients ++ [mkNewPatient db pd]
          next_patient_id := db.next_patient_id + 1 })

/-- `_check_slot_available(cur, slot_id)`: `SELECT is_available FROM
available_slots WHERE id = %s`; `result and result['is_available']` is false
when the row is missing. -/
def checkSlotAvailable (db : DB) (slot_id : Nat) : Bool :=
  match db.slots.find? (fun s => s.id == slot_id) with
  | some s => s.is_available
  | none => false

/-- `_insert_appointment`: `INSERT INTO appointments ... RETURNING id`, with
status always `'CONFIRMED'`, the appointment timestamp taken by subquery from
the slot's date and time, and the insurance argument normalised. -/
def insertAppointment (db : DB) (patient_id doctor_id : Nat) (clinic_id : Option Str)
    (slot_id : Nat) (insurance_type : Option Str) (insurance_plan_id : Option Nat) :
    Nat × DB :=
  let a : Appointment :=
    { id := db.next_appointment_id
      patient_id := patient_id
      doctor_id := doctor_id
      clinic_id := clinic_id
      slot_id := slot_id
      appointment_datetime :=
        (db.slots.find? (fun s => s.id == slot_id)).map (fun s => (s.date, s.time))
      insurance_type := normalizeInsurance insurance_type
      insurance_plan_id := insurance_plan_id
      status := AppointmentStatus.CONFIRMED
      created_at := db.clock
      confirmed_at := none
      cancelled_at := none
      cancellation_reason := none }
  (db.next_appointment_id,
    { db with
        appointments := db.appointments ++ [a]
        next_appointment_id := db.next_appointment_id + 1 })

/-- `_block_slot(cur, slot_id)`: `UPDATE available_slots SET is_available =
FALSE WHERE id = %s` — unconditional, no affected-row check. -/
def blockSlot (db : DB) (slot_id : Nat) : DB :=
  { db with
      slots := db.slots.map (fun s =>
        if s.id == slot_id then { s with is_available := false } else s) }

/-- `clinic_id = str(clinic_id).strip() if clinic_id else None`. -/
def normClinicId (clinic_id : Str) : Option Str :=
  if clinic_id = [] then none else some (pyStrip clinic_id)

/-- `create_appointment` (the spec's `book`), run as one transaction on the
committed state `db`: resolve the patient, re-check the slot (rolling back
with the unavailable message when the check fails), insert the CONFIRMED
appointment, block the slot, commit.  Any injected fault lands in the
`except` branch: rollback, so the committed state is returned unchanged. -/
def create_appointment (fault : Fault) (db : DB) (patient_data : PatientData)
    (doctor_id slot_id : Nat) (clinic_id : Str) (insurance_type : Option Str)
    (insurance_plan_id : Option Nat) : BookResult × DB :=
  if fault = Fault.atResolve then
    ({ status := strError, appointment_id := none, message := msgBookError }, db)
  else
    let pr := getOrCreatePatient db patient_data
    if checkSlotAvailable pr.2 slot_id then
      let ir := insertAppointment pr.2 pr.1 doctor_id (normClinicId clinic_id)
        slot_id insurance_type insurance_plan_id
      if fault = Fault.atInsert then
        ({ status := strError, appointment_id := none, message := msgBookError }, db)
      else
        let db3 := blockSlot ir.2 slot_id
        if fault = Fault.atBlock ∨ fault = Fault.atCommit then
          ({ status := strError, appointment_id := none, message := msgBookError }, db)
        else
          ({ status := strSuccess, appointment_id := some ir.1,
             message := msgConfirmedPrefix ++ Nat.toDigits 10 ir.1 },
           { db3 with clock := db3.clock + 1 })
    else
      ({ status := strError, appointment_id := none, message := msgSlotUnavailable }, db)

/-- `cancel_appointment(appointment_id, cancellation_reason)`: look up the
appointment's slot_id; if absent return the not-found error; otherwise
unconditionally set status `'CANCELLED'` with `cancelled_at = NOW()` and the
supplied reason, free the slot, and commit.  There is no check of the
current status before updating. -/
def cancel_appointment (db : DB) (appointment_id : Nat) (cancellation_reason : Option Str) :
    CancelResult × DB :=
  match db.appointments.find? (fun a => a.id == appointment_id) with
  | none => ({ status := strError, message := msgCancelNotFound }, db)
  | some a0 =>
    let slot_id := a0.slot_id
    ({ status := strSuccess, message := msgCancelOk },
     { db with
         appointments := db.appointments.map (fun a =>
           if a.id == appointment_id then
             { a with
                 status := AppointmentStatus.CANCELLED
                 cancelled_at := some db.clock
                 cancellation_reason := cancellation_reason }
           else a)
         slots := db.slots.map (fun s =>
           if s.id == slot_id then { s with is_available := true } else s)
         clock := db.clock + 1 })

/-- The dict returned by `get_appointment_by_id`: the `SELECT` columns, with
`int()` applied to every id (so `clinic_id` is numeric). -/
structure ApptDetails where
  id : Nat
  patient_id : Nat
  doctor_id : Nat
  clinic_id : Nat
  slot_id : Nat
  status : AppointmentStatus
  appointment_datetime : Option (Nat × Nat)
  patient_name : Str
  patient_cpf : Str
  patient_email : Str
  patient_phone : Str
  doctor_name : Str
  specialty : Str
  consultation_price : Nat
  clinic_name : Str
  clinic_phone : Str
  clinic_address : Str
  clinic_city : Str
  insurance_type : Str
  insurance_plan_id : Option Nat
  created_at : Nat
  confirmed_at : Option Nat
  cancelled_at : Option Nat
  cancellation_reason : Option Str
deriving DecidableEq

/-- `get_appointment_by_id(appointment_id)`: joins appointments with
patients, doctors and clinics on the row with the given id; a missing row (or
a join miss) returns `None`.  `int(result_dict['clinic_id'])` on the stored
clinic id raises `ValueError` on non-numeric text, which the `except` branch
turns into `None`; a storage fault is likewise caught and yields `None`. -/
def get_appointment_by_id (storageFault : Bool) (db : DB) (appointment_id : Nat) :
    Option ApptDetails :=
  if storageFault then none
  else
    match db.appointments.find? (fun a => a.id == appointment_id) with
    | none => none
    | some a =>
      match db.patients.find? (fun p => p.id == a.patient_id),
            db.doctors.find? (fun d => d.id == a.doctor_id),
            a.clinic_id.bind (fun cid => db.clinics.find? (fun c => c.id == cid)) with
      | some p, some d, some c =>
        match natOfStr? ((a.clinic_id).getD []) with
        | none => none
        | some cidNat =>
          some { id := a.id
                 patient_id := a.patient_id
                 doctor_id := a.doctor_id
                 clinic_id := cidNat
                 slot_id := a.slot_id
                 status := a.status
                 appointment_datetime := a.appointment_datetime
                 patient_name := p.name
                 patient_cpf := p.cpf
                 patient_email := p.email
                 patient_phone := p.phone
                 doctor_name := d.name
                 specialty := d.specialty
                 consultation_price := d.consultation_price
                 clinic_name := c.legal_name
                 clinic_phone := c.phone
                 clinic_address := c.address
                 clinic_city := c.city
                 insurance_type := a.insurance_type
                 insurance_plan_id := a.insurance_plan_id
                 created_at := a.created_at
                 confirmed_at := a.confirmed_at
                 cancelled_at := a.cancelled_at
                 cancellation_reason := a.cancellation_reason }
      | _, _, _ => none

/-- Read-committed interleaving of two concurrent `create_appointment`
transactions T1, T2 on the same slot: both run `_check_slot_available`
before either commits, so both read the committed state `db`; then T1's
writes commit, then T2's writes commit (its patient lookup misses in both
states when the two cpfs are distinct and fresh, and its unconditional
`UPDATE available_slots` serialises after T1's).  Neither statement
re-checks `is_available`, so nothing stops T2 after T1 commits. -/
def raceBothBook (db : DB) (pd1 pd2 : PatientData) (doctor_id slot_id : Nat)
    (clinic_id : Str) : BookResult × BookResult × DB :=
  if checkSlotAvailable db slot_id && checkSlotAvailable db slot_id then
    let pr1 := getOrCreatePatient db pd1
    let ir1 := insertAppointment pr1.2 pr1.1 doctor_id (normClinicId clinic_id)
      slot_id none none
    let dbA := blockSlot ir1.2 slot_id
    let dbA := { dbA with clock := dbA.clock + 1 }
    let pr2 := getOrCreatePatient dbA pd2
    let ir2 := insertAppointment pr2.2 pr2.1 doctor_id (normClinicId clinic_id)
      slot_id none none
    let dbB := blockSlot ir2.2 slot_id
    ({ status := strSuccess, appointment_id := some ir1.1,
       message := msgConfirmedPrefix ++ Nat.toDigits 10 ir1.1 },
     { status := strSuccess, appointment_id := some ir2.1,
       message := msgConfirmedPrefix ++ Nat.toDigits 10 ir2.1 },
     { dbB with clock := dbB.clock + 1 })
  else
    ({ status := strError, appointment_id := none, message := msgSlotUnavailable },
     { status := strError, appointment_id := none, message := msgSlotUnavailable },
     db)

/-- `a` is a CONFIRMED appointment row referencing slot id `sid`. -/
def ConfirmedFor (appts : List Appointment) (sid : Nat) (a : Appointment) : Prop :=
  a ∈ appts ∧ a.slot_id = sid ∧ a.status = AppointmentStatus.CONFIRMED

/-- Invariant I1 of the spec: every slot row is referenced by at most one
CONFIRMED appointment, and its availability flag is HELD (`is_available =
false`) exactly when such an appointment exists. -/
def I1 (db : DB) : Prop :=
  ∀ s ∈ db.slots,
    (∀ a1 a2 : Appointment, ConfirmedFor db.appointments s.id a1 →
        ConfirmedFor db.appointments s.id a2 → a1 = a2) ∧
    (s.is_available = false ↔ ∃ a : Appointment, ConfirmedFor db.appointments s.id a)

/-- One engine operation: a `create_appointment` call (with its fault
injection) or a `cancel_appointment` call. -/
inductive Op where
  | book (fault : Fault) (pd : PatientData) (doctor_id slot_id : Nat) (clinic_id : Str)
      (insurance_type : Option Str) (insurance_plan_id : Option Nat)
  | cancel (appointment_id : Nat) (reason : Option Str)

/-- The committed state after one operation. -/
def applyOp (db : DB) : Op → DB
  | Op.book f pd d s c i p => (create_appointment f db pd d s c i p).2
  | Op.cancel aid r => (cancel_appointment db aid r).2

/-- The committed state after a sequence of operations. -/
def runOps (db : DB) : List Op → DB
  | [] => db
  | op :: ops => runOps (applyOp db op) ops

/-- An operation is adequate in state `db` when it is a book, a cancel of an
unknown id, or a cancel of an appointment that is currently CONFIRMED —
i.e. cancel is never replayed against an already-CANCELLED appointment. -/
def okOp (db : DB) : Op → Bool
  | Op.book .. => true
  | Op.cancel aid _ =>
    match db.appointments.find? (fun a => a.id == aid) with
    | none => true
    | some a => a.status == AppointmentStatus.CONFIRMED

/-- Every operation of the sequence is adequate in the state it runs in. -/
def legalOps (db : DB) : List Op → Bool
  | [] => true
  | op :: ops => okOp db op && legalOps (applyOp db op) ops

/-- Initial states of the claim: every slot AVAILABLE, no CONFIRMED
appointment; appointment ids are unique and below the serial sequence, as
the store's serial primary key guarantees. -/
def initStateOK (db : DB) : Prop :=
  (∀ s ∈ db.slots, s.is_available = true) ∧
  (∀ a ∈ db.appointments, a.status ≠ AppointmentStatus.CONFIRMED) ∧
  (db.appointments.map Appointment.id).Nodup ∧
  (∀ a ∈ db.appointments, a.id < db.next_appointment_id)

/-- Uniqueness of appointment ids, maintained by the serial sequence. -/
def apptIdsOK (db : DB) : Prop :=
  (db.appointments.map Appointment.id).Nodup ∧
  ∀ a ∈ db.appointments, a.id < db.next_appointment_id

/-- Executable detector of one direction of an I1 violation: some slot row
is AVAILABLE while a CONFIRMED appointment references it. -/
def i1FlagViolation (db : DB) : Bool :=
  db.slots.any (fun s => s.is_available &&
    db.appointments.any (fun a => a.slot_id == s.id &&
      a.status == AppointmentStatus.CONFIRMED))

lemma gocp_slots (db : DB) (pd : PatientData) :
    (getOrCreatePatient db pd).2.slots = db.slots := by
  simp only [getOrCreatePatient]
  split <;> rfl

lemma gocp_appointments (db : DB) (pd : PatientData) :
    (getOrCreatePatient db pd).2.appointments = db.appointments := by
  simp only [getOrCreatePatient]
  split <;> rfl

lemma gocp_next_appointment_id (db : DB) (pd : PatientData) :
    (getOrCreatePatient db pd).2.next_appointment_id = db.next_appointment_id := by
  simp only [getOrCreatePatient]
  split <;> rfl

lemma gocp_clinics (db : DB) (pd : PatientData) :
    (getOrCreatePatient db pd).2.clinics = db.clinics := by
  simp only [getOrCreatePatient]
  split <;> rfl

lemma gocp_doctors (db : DB) (pd : PatientData) :
    (getOrCreatePatient db pd).2.doctors = db.doctors := by
  simp only [getOrCreatePatient]
  split <;> rfl

lemma gocp_clock (db : DB) (pd : PatientData) :
    (getOrCreatePatient db pd).2.clock = db.clock := by
  simp only [getOrCreatePatient]
  split <;> rfl

lemma checkSlotAvailable_congr {db1 db2 : DB} (h : db1.slots = db2.slots)
    (sid : Nat) : checkSlotAvailable db1 sid = checkSlotAvailable db2 sid := by
  simp only [checkSlotAvailable, h]

/-- C4 (amended) — `create_appointment` is all-or-nothing: on every failing
branch, including faults injected after the slot check (insert, block,
commit), the transaction rolls back and the committed state is returned
unchanged, so a slot that was AVAILABLE stays AVAILABLE, and no appointment,
patient or slot write persists. -/
theorem book_failure_rolls_back (fault : Fault) (db : DB) (pd : PatientData)
    (doctor_id slot_id : Nat) (clinic_id : Str) (ins : Option Str) (plan : Option Nat)
    (h : (create_appointment fault db pd doctor_id slot_id clinic_id ins plan).1.status
      = strError) :
    (create_appointment fault db pd doctor_id slot_id clinic_id ins plan).2 = db := by
  simp only [create_appointment] at h ⊢
  split_ifs at h ⊢ <;> first
    | rfl
    | exact absurd (show strSuccess = strError from h) (by decide)

def cpfA : Str := "12345678900".toList

def pdA : PatientData :=
  { name := "Maria Silva".toList, cpf := cpfA, date_of_birth := "1990-03-15".toList,
    email := none, phone := none, insurance_type := none }

def pdB : PatientData :=
  { name := "Joao Souza".toList, cpf := "98765432100".toList,
    date_of_birth := "1985-01-01".toList, email := none, phone := none,
    insurance_type := some "HEALTH_PLAN".toList }

def clinic1 : Clinic :=
  { id := "1".toList, legal_name := "Clinica Um".toList, address := "Rua A".toList,
    city := "Sao Paulo".toList, state := "SP".toList, phone := "5511".toList }

def doctor7 : Doctor :=
  { id := 7, clinic_id := "1".toList, name := "Dr. Silva".toList,
    specialty := "Cardiologia".toList, consultation_price := 100 }

def slot101 : Slot :=
  { id := 101, doctor_id := 7, clinic_id := "1".toList, date := 20, time := 9,
    is_available := true }

/-- A fresh store: slot 101 AVAILABLE, no patients, no appointments. -/
def db0 : DB :=
  { clinics := [clinic1], doctors := [doctor7], slots := [slot101], patients := [],
    appointments := [], next_patient_id := 1, next_appointment_id := 1, clock := 0 }

example : (create_appointment Fault.ok db0 pdA 7 101 "1".toList none none).1.status
    = strSuccess := by decide

/-- C4 witness: a fault injected at the appointment insert — i.e. after the
slot check — rolls the whole transaction back on the fresh store. -/
theorem book_failure_rolls_back_w :
    (create_appointment Fault.atInsert db0 pdA 7 101 "1".toList none none).2 = db0 :=
  book_failure_rolls_back Fault.atInsert db0 pdA 7 101 "1".toList none none (by decide)

/-- The store after the successful Scenario-A booking: slot 101 HELD,
appointment 1 CONFIRMED. -/
def db1 : DB := (create_appointment Fault.ok db0 pdA 7 101 "1".toList none none).2

/-- C4 counterexample: on `db1` the same book call fails (slot already
HELD), yet afterward the slot's flag is still HELD and an appointment row
references slot 101 — the claim's conclusion ("the Slot's availability flag
equals AVAILABLE and no Appointment row references that slotId" after any
failure) is false for this failing call. -/
theorem book_failure_claim_counterexample :
    (create_appointment Fault.ok db1 pdB 7 101 "1".toList none none).1.status = strError ∧
    ((create_appointment Fault.ok db1 pdB 7 101 "1".toList none none).2.slots.find?
      (fun s => s.id == 101)).map Slot.is_available = some false ∧
    (create_appointment Fault.ok db1 pdB 7 101 "1".toList none none).2.appointments.any
      (fun a => a.slot_id == 101) = true := by
  decide

lemma book_unavailable_eq (db : DB) (pd : PatientData)
    (doctor_id slot_id : Nat) (clinic_id : Str) (ins : Option Str) (plan : Option Nat)
    (h : checkSlotAvailable db slot_id = false) :
    create_appointment Fault.ok db pd doctor_id slot_id clinic_id ins plan
      = ({ status := strError, appointment_id := none, message := msgSlotUnavailable },
         db) := by
  have h2 : checkSlotAvailable (getOrCreatePatient db pd).2 slot_id = false :=
    (checkSlotAvailable_congr (gocp_slots db pd) slot_id).trans h
  simp [create_appointment, h2]

/-- C5: when `_check_slot_available` reports the slot HELD or absent,
fault-free `create_appointment` returns exactly the slot-unavailable error
with no appointment id, and the committed state — including any patient row
inserted by the resolve step — is unchanged. -/
theorem book_unavailable_no_mutation (db : DB) (pd : PatientData)
    (doctor_id slot_id : Nat) (clinic_id : Str) (ins : Option Str) (plan : Option Nat)
    (h : checkSlotAvailable db slot_id = false) :
    create_appointment Fault.ok db pd doctor_id slot_id clinic_id ins plan
      = ({ status := strError, appointment_id := none, message := msgSlotUnavailable },
         db) :=
  book_unavailable_eq db pd doctor_id slot_id clinic_id ins plan h

/-- C5 witness: booking the already-HELD slot 101 of `db1` mutates nothing
and reports the unavailable error. -/
theorem book_unavailable_no_mutation_w :
    create_appointment Fault.ok db1 pdB 7 101 "1".toList none none
      = ({ status := strError, appointment_id := none, message := msgSlotUnavailable },
         db1) :=
  book_unavailable_no_mutation db1 pdB 7 101 "1".toList none none (by decide)

/-- The store after cancelling appointment 1 of `db1`: appointment 1
CANCELLED, slot 101 AVAILABLE again. -/
def db2c : DB := (cancel_appointment db1 1 (some "old".toList)).2

/-- C3 counterexample: appointment 1 of `db2c` is already CANCELLED, yet a
second `cancel_appointment` on it returns success — not the AlreadyCancelled
error — and mutates the row: `cancellation_reason` is overwritten with the
new reason and `cancelled_at` with the new transaction time. -/
theorem cancel_cancelled_counterexample :
    ((db2c.appointments.find? (fun a => a.id == 1)).map Appointment.status
      = some AppointmentStatus.CANCELLED) ∧
    (cancel_appointment db2c 1 (some "patient request".toList)).1.status = strSuccess ∧
    (((cancel_appointment db2c 1 (some "patient request".toList)).2.appointments.find?
      (fun a => a.id == 1)).map Appointment.cancellation_reason
      = some (some "patient request".toList)) ∧
    (((cancel_appointment db2c 1 (some "patient request".toList)).2.appointments.find?
      (fun a => a.id == 1)).map Appointment.cancelled_at ≠
      (db2c.appointments.find? (fun a => a.id == 1)).map Appointment.cancelled_at) := by
  decide

/-- C3 (amended): `cancel_appointment` never checks the current status: on an
appointment that is already CANCELLED it returns success and re-applies the
cancellation — status stays CANCELLED, `cancelled_at` is overwritten with the
current transaction time and `cancellation_reason` with the supplied reason —
and the referenced slot's availability flag is set back to AVAILABLE. -/
theorem cancel_already_cancelled_reapplies (db : DB) (aid : Nat) (reason : Option Str)
    (a0 : Appointment)
    (hfind : db.appointments.find? (fun a => a.id == aid) = some a0)
    (_hst : a0.status = AppointmentStatus.CANCELLED) :
    (cancel_appointment db aid reason).1 = { status := strSuccess, message := msgCancelOk } ∧
    (cancel_appointment db aid reason).2.appointments
      = db.appointments.map (fun a =>
          if a.id == aid then
            { a with status := AppointmentStatus.CANCELLED,
                     cancelled_at := some db.clock,
                     cancellation_reason := reason }
          else a) ∧
    (cancel_appointment db aid reason).2.slots
      = db.slots.map (fun s =>
          if s.id == a0.slot_id then { s with is_available := true } else s) := by
  simp [cancel_appointment, hfind]

/-- The CANCELLED row that appointment 1 has in `db2c`. -/
def apptC : Appointment :=
  { id := 1, patient_id := 1, doctor_id := 7, clinic_id := some "1".toList,
    slot_id := 101, appointment_datetime := some (20, 9),
    insurance_type := particularStr, insurance_plan_id := none,
    status := AppointmentStatus.CANCELLED, created_at := 0, confirmed_at := none,
    cancelled_at := some 1, cancellation_reason := some "old".toList }

/-- C3 witness: the amended behaviour at the concrete already-CANCELLED
appointment 1 of `db2c`. -/
theorem cancel_already_cancelled_reapplies_w :
    (cancel_appointment db2c 1 (some "patient request".toList)).1
      = { status := strSuccess, message := msgCancelOk } ∧
    (cancel_appointment db2c 1 (some "patient request".toList)).2.appointments
      = db2c.appointments.map (fun a =>
          if a.id == 1 then
            { a with status := AppointmentStatus.CANCELLED,
                     cancelled_at := some db2c.clock,
                     cancellation_reason := some "patient request".toList }
          else a) ∧
    (cancel_appointment db2c 1 (some "patient request".toList)).2.slots
      = db2c.slots.map (fun s =>
          if s.id == apptC.slot_id then { s with is_available := true } else s) :=
  cancel_already_cancelled_reapplies db2c 1 (some "patient request".toList)
    apptC (by decide) (by decide)

/-- C2: under the read-committed interleaving in which both transactions run
`_check_slot_available` before either commits, both `create_appointment`
calls on slot 101 of the fresh store succeed and afterwards two CONFIRMED
appointment rows reference the slot — the claim "exactly one succeeds, the
other reports SlotUnavailable" fails on the code, whose claim step is a
plain read followed by an unconditional write. -/
theorem race_double_books :
    (raceBothBook db0 pdA pdB 7 101 "1".toList).1.status = strSuccess ∧
    (raceBothBook db0 pdA pdB 7 101 "1".toList).2.1.status = strSuccess ∧
    ((raceBothBook db0 pdA pdB 7 101 "1".toList).2.2.appointments.filter
      (fun a => a.slot_id == 101 && a.status == AppointmentStatus.CONFIRMED)).length
      = 2 := by
  decide

/-- C10: `get_appointment_by_id` is total in the embedding (every failure,
including storage faults and the `int()` `ValueError` on a UUID clinic id,
is caught and turned into `None`), and it returns `None` both under a
storage fault and when no appointment row has the given id — the two
outcomes are the same value, so the caller cannot tell them apart. -/
theorem getById_none_indistinguishable (dbF dbM : DB) (idF idM : Nat)
    (h : dbM.appointments.find? (fun a => a.id == idM) = none) :
    get_appointment_by_id true dbF idF = none ∧
    get_appointment_by_id false dbM idM = none ∧
    get_appointment_by_id true dbF idF = get_appointment_by_id false dbM idM := by
  refine ⟨rfl, ?_, ?_⟩ <;> simp [get_appointment_by_id, h]

/-- C10 witness: a storage fault on `db1` and a missing id on the fresh
store both yield `None`. -/
theorem getById_none_indistinguishable_w :
    get_appointment_by_id true db1 1 = none ∧
    get_appointment_by_id false db0 3 = none ∧
    get_appointment_by_id true db1 1 = get_appointment_by_id false db0 3 :=
  getById_none_indistinguishable db1 db0 1 3 (by decide)

/-- The CONFIRMED appointment row that a successful `create_appointment` on
`db` appends, expressed over the pre-call committed state. -/
def bookedAppt (db : DB) (pd : PatientData) (doctor_id slot_id : Nat) (clinic_id : Str)
    (ins : Option Str) (plan : Option Nat) : Appointment :=
  { id := db.next_appointment_id
    patient_id := (getOrCreatePatient db pd).1
    doctor_id := doctor_id
    clinic_id := normClinicId clinic_id
    slot_id := slot_id
    appointment_datetime :=
      (db.slots.find? (fun s => s.id == slot_id)).map (fun s => (s.date, s.time))
    insurance_type := normalizeInsurance ins
    insurance_plan_id := plan
    status := AppointmentStatus.CONFIRMED
    created_at := db.clock
    confirmed_at := none
    cancelled_at := none
    cancellation_reason := none }

/-- The committed state after a successful `create_appointment` on `db`. -/
def bookSuccState (db : DB) (pd : PatientData) (doctor_id slot_id : Nat) (clinic_id : Str)
    (ins : Option Str) (plan : Option Nat) : DB :=
  { db with
      patients := (getOrCreatePatient db pd).2.patients
      next_patient_id := (getOrCreatePatient db pd).2.next_patient_id
      appointments := db.appointments ++ [bookedAppt db pd doctor_id slot_id clinic_id ins plan]
      next_appointment_id := db.next_appointment_id + 1
      slots := db.slots.map (fun s =>
        if s.id == slot_id then { s with is_available := false } else s)
      clock := db.clock + 1 }

lemma book_available_success (db : DB) (pd : PatientData) (doctor_id slot_id : Nat)
    (clinic_id : Str) (ins : Option Str) (plan : Option Nat)
    (h : checkSlotAvailable db slot_id = true) :
    create_appointment Fault.ok db pd doctor_id slot_id clinic_id ins plan
      = ({ status := strSuccess, appointment_id := some db.next_appointment_id,
           message := msgConfirmedPrefix ++ Nat.toDigits 10 db.next_appointment_id },
         bookSuccState db pd doctor_id slot_id clinic_id ins plan) := by
  have h2 : checkSlotAvailable (getOrCreatePatient db pd).2 slot_id = true :=
    (checkSlotAvailable_congr (gocp_slots db pd) slot_id).trans h
  simp only [create_appointment, h2, if_true]
  rw [if_neg (by decide), if_neg (by decide), if_neg (by decide)]
  simp only [insertAppointment, blockSlot, bookSuccState, bookedAppt,
    gocp_slots, gocp_appointments, gocp_clock, gocp_next_appointment_id,
    gocp_clinics, gocp_doctors]

lemma book_result_cases (fault : Fault) (db : DB) (pd : PatientData)
    (doctor_id slot_id : Nat) (clinic_id : Str) (ins : Option Str) (plan : Option Nat) :
    (create_appointment fault db pd doctor_id slot_id clinic_id ins plan).2 = db ∨
    (fault = Fault.ok ∧ checkSlotAvailable db slot_id = true ∧
      (create_appointment fault db pd doctor_id slot_id clinic_id ins plan).2
        = bookSuccState db pd doctor_id slot_id clinic_id ins plan) := by
  by_cases hf : fault = Fault.ok
  · subst hf
    by_cases hc : checkSlotAvailable db slot_id = true
    · exact Or.inr ⟨rfl, hc, by rw [book_available_success db pd doctor_id slot_id clinic_id ins plan hc]⟩
    · left
      have hc' : checkSlotAvailable db slot_id = false := by
        cases h : checkSlotAvailable db slot_id
        · rfl
        · exact absurd h hc
      rw [book_unavailable_eq db pd doctor_id slot_id clinic_id ins plan hc']
  · left
    simp only [create_appointment]
    split_ifs
    any_goals rfl
    exact absurd (show fault = Fault.ok by cases fault <;> simp_all) hf

/-- The committed state after `cancel_appointment` finds the appointment. -/
def cancelSuccState (db : DB) (aid : Nat) (reason : Option Str) (a0 : Appointment) : DB :=
  { db with
      appointments := db.appointments.map (fun a =>
        if a.id == aid then
          { a with status := AppointmentStatus.CANCELLED,
                   cancelled_at := some db.clock,
                   cancellation_reason := reason }
        else a)
      slots := db.slots.map (fun s =>
        if s.id == a0.slot_id then { s with is_available := true } else s)
      clock := db.clock + 1 }

lemma cancel_found_eq (db : DB) (aid : Nat) (reason : Option Str) (a0 : Appointment)
    (hfind : db.appointments.find? (fun a => a.id == aid) = some a0) :
    cancel_appointment db aid reason
      = ({ status := strSuccess, message := msgCancelOk },
         cancelSuccState db aid reason a0) := by
  simp [cancel_appointment, cancelSuccState, hfind]

lemma cancel_notfound_eq (db : DB) (aid : Nat) (reason : Option Str)
    (hfind : db.appointments.find? (fun a => a.id == aid) = none) :
    cancel_appointment db aid reason
      = ({ status := strError, message := msgCancelNotFound }, db) := by
  simp [cancel_appointment, hfind]

lemma find?_setAvail (b : Bool) (l : List Slot) (sid : Nat) (s0 : Slot)
    (h : l.find? (fun s => s.id == sid) = some s0) :
    (l.map (fun s => if s.id == sid then { s with is_available := b } else s)).find?
      (fun s => s.id == sid) = some { s0 with is_available := b } := by
  rw [List.find?_map]
  have hf : ((fun s : Slot => s.id == sid) ∘
      (fun s => if s.id == sid then { s with is_available := b } else s))
      = (fun s : Slot => s.id == sid) := by
    funext s
    by_cases hs : (s.id == sid) = true <;> simp [Function.comp, hs]
  rw [hf, h]
  have hid := List.find?_some h
  simp only [] at hid
  show some (if (s0.id == sid) = true then { s0 with is_available := b } else s0)
    = some { s0 with is_available := b }
  rw [if_pos hid]

lemma book_success_characterize (fault : Fault) (db : DB) (pd : PatientData)
    (doctor_id slot_id : Nat) (clinic_id : Str) (ins : Option Str) (plan : Option Nat)
    (hsucc : (create_appointment fault db pd doctor_id slot_id clinic_id ins plan).1.status
      = strSuccess) :
    fault = Fault.ok ∧ checkSlotAvailable db slot_id = true := by
  simp only [create_appointment] at hsucc
  split_ifs at hsucc with h1 h2 h3 h4
  case _ => exact absurd (show strError = strSuccess from hsucc) (by decide)
  case _ => exact absurd (show strError = strSuccess from hsucc) (by decide)
  case _ => exact absurd (show strError = strSuccess from hsucc) (by decide)
  case _ =>
    refine ⟨by cases fault <;> simp_all, ?_⟩
    exact ((checkSlotAvailable_congr (gocp_slots db pd) slot_id).symm).trans h2
  case _ => exact absurd (show strError = strSuccess from hsucc) (by decide)

lemma book_patients_unchanged_of_found (fault : Fault) (db : DB) (pd : PatientData)
    (doctor_id slot_id : Nat) (clinic_id : Str) (ins : Option Str) (plan : Option Nat)
    (q : Patient)
    (hfound : db.patients.find? (fun p => p.cpf == pd.cpf) = some q) :
    (create_appointment fault db pd doctor_id slot_id clinic_id ins plan).2.patients
      = db.patients := by
  have hg : getOrCreatePatient db pd = (q.id, db) := by
    simp [getOrCreatePatient, hfound]
  rcases book_result_cases fault db pd doctor_id slot_id clinic_id ins plan with h | ⟨_, _, h⟩
  · rw [h]
  · rw [h]
    simp [bookSuccState, hg]

/-- C7: for a CONFIRMED appointment whose slot row exists, `cancel` followed
by a fault-free `book` on the same slotId succeeds: the cancel reports
success and frees the slot, the subsequent slot check passes, the book call
returns success with the next serial appointment id, the newly appended
appointment row is CONFIRMED on that slot, and the slot is HELD again. -/
theorem cancel_then_book_succeeds (db : DB) (aid : Nat) (reason : Option Str)
    (a0 : Appointment) (s0 : Slot) (pd : PatientData) (doctor_id : Nat)
    (clinic_id : Str) (ins : Option Str) (plan : Option Nat)
    (hfind : db.appointments.find? (fun a => a.id == aid) = some a0)
    (_hconf : a0.status = AppointmentStatus.CONFIRMED)
    (hslot : db.slots.find? (fun s => s.id == a0.slot_id) = some s0) :
    (cancel_appointment db aid reason).1.status = strSuccess ∧
    (create_appointment Fault.ok (cancel_appointment db aid reason).2 pd doctor_id
      a0.slot_id clinic_id ins plan).1.status = strSuccess ∧
    (create_appointment Fault.ok (cancel_appointment db aid reason).2 pd doctor_id
      a0.slot_id clinic_id ins plan).1.appointment_id = some db.next_appointment_id ∧
    ((create_appointment Fault.ok (cancel_appointment db aid reason).2 pd doctor_id
      a0.slot_id clinic_id ins plan).2.appointments.getLast?).map Appointment.status
      = some AppointmentStatus.CONFIRMED ∧
    ((create_appointment Fault.ok (cancel_appointment db aid reason).2 pd doctor_id
      a0.slot_id clinic_id ins plan).2.appointments.getLast?).map Appointment.slot_id
      = some a0.slot_id ∧
    ((create_appointment Fault.ok (cancel_appointment db aid reason).2 pd doctor_id
      a0.slot_id clinic_id ins plan).2.slots.find? (fun s => s.id == a0.slot_id)).map
      Slot.is_available = some false := by
  have hc := cancel_found_eq db aid reason a0 hfind
  have hfree : (cancelSuccState db aid reason a0).slots.find?
      (fun s => s.id == a0.slot_id) = some { s0 with is_available := true } :=
    find?_setAvail true db.slots a0.slot_id s0 hslot
  have hcheck : checkSlotAvailable (cancelSuccState db aid reason a0) a0.slot_id = true := by
    simp [checkSlotAvailable, hfree]
  have hb := book_available_success (cancelSuccState db aid reason a0) pd doctor_id
    a0.slot_id clinic_id ins plan hcheck
  have hheld : (bookSuccState (cancelSuccState db aid reason a0) pd doctor_id
      a0.slot_id clinic_id ins plan).slots.find? (fun s => s.id == a0.slot_id)
      = some { s0 with is_available := false } := by
    have := find?_setAvail false (cancelSuccState db aid reason a0).slots a0.slot_id
      { s0 with is_available := true } hfree
    simpa [bookSuccState] using this
  rw [hc]
  refine ⟨rfl, ?_, ?_, ?_, ?_, ?_⟩
  · rw [hb]
  · rw [hb]
    rfl
  · rw [hb]
    simp [bookSuccState, List.getLast?_concat, bookedAppt]
  · rw [hb]
    simp [bookSuccState, List.getLast?_concat, bookedAppt]
  · rw [hb]
    simp only [hheld, Option.map]

/-- The CONFIRMED row that appointment 1 has in `db1`. -/
def apptB1 : Appointment :=
  { apptC with status := AppointmentStatus.CONFIRMED, cancelled_at := none,
               cancellation_reason := none }

/-- C7 witness: cancelling appointment 1 of `db1` and re-booking slot 101
succeeds, with the new CONFIRMED appointment id 2 and the slot HELD. -/
theorem cancel_then_book_succeeds_w :
    (cancel_appointment db1 1 (some "patient request".toList)).1.status = strSuccess ∧
    (create_appointment Fault.ok (cancel_appointment db1 1 (some "patient request".toList)).2
      pdB 7 apptB1.slot_id "1".toList none none).1.status = strSuccess ∧
    (create_appointment Fault.ok (cancel_appointment db1 1 (some "patient request".toList)).2
      pdB 7 apptB1.slot_id "1".toList none none).1.appointment_id
      = some db1.next_appointment_id ∧
    ((create_appointment Fault.ok (cancel_appointment db1 1 (some "patient request".toList)).2
      pdB 7 apptB1.slot_id "1".toList none none).2.appointments.getLast?).map
      Appointment.status = some AppointmentStatus.CONFIRMED ∧
    ((create_appointment Fault.ok (cancel_appointment db1 1 (some "patient request".toList)).2
      pdB 7 apptB1.slot_id "1".toList none none).2.appointments.getLast?).map
      Appointment.slot_id = some apptB1.slot_id ∧
    ((create_appointment Fault.ok (cancel_appointment db1 1 (some "patient request".toList)).2
      pdB 7 apptB1.slot_id "1".toList none none).2.slots.find?
      (fun s => s.id == apptB1.slot_id)).map Slot.is_available = some false :=
  cancel_then_book_succeeds db1 1 (some "patient request".toList) apptB1
    { slot101 with is_available := false } pdB 7 "1".toList none none
    (by decide) (by decide) (by decide)

/-- C6: first-write-wins patient deduplication across two book calls with
the same identity key.  If the store has no patient with `pd1`'s cpf and the
first (fault-free) `create_appointment` succeeds, then: exactly one patient
row carries that cpf and it is the row built from `pd1`'s profile; the
second call's `_get_or_create_patient` returns that existing row's id and
leaves the state unchanged; and the whole second call — whatever its slot,
fault or outcome — leaves the patients table unmodified. -/
theorem patient_dedup_first_write_wins (s0 : DB) (pd1 pd2 : PatientData) (f2 : Fault)
    (d1 sl1 : Nat) (c1 : Str) (i1 : Option Str) (pl1 : Option Nat)
    (d2 sl2 : Nat) (c2 : Str) (i2 : Option Str) (pl2 : Option Nat)
    (hcpf : pd2.cpf = pd1.cpf)
    (hmiss : s0.patients.find? (fun p => p.cpf == pd1.cpf) = none)
    (hsucc : (create_appointment Fault.ok s0 pd1 d1 sl1 c1 i1 pl1).1.status = strSuccess) :
    (create_appointment Fault.ok s0 pd1 d1 sl1 c1 i1 pl1).2.patients.filter
      (fun p => p.cpf == pd1.cpf) = [mkNewPatient s0 pd1] ∧
    getOrCreatePatient (create_appointment Fault.ok s0 pd1 d1 sl1 c1 i1 pl1).2 pd2
      = (s0.next_patient_id, (create_appointment Fault.ok s0 pd1 d1 sl1 c1 i1 pl1).2) ∧
    (create_appointment f2 (create_appointment Fault.ok s0 pd1 d1 sl1 c1 i1 pl1).2
      pd2 d2 sl2 c2 i2 pl2).2.patients
      = (create_appointment Fault.ok s0 pd1 d1 sl1 c1 i1 pl1).2.patients := by
  have hcheck := (book_success_characterize Fault.ok s0 pd1 d1 sl1 c1 i1 pl1 hsucc).2
  have hb := book_available_success s0 pd1 d1 sl1 c1 i1 pl1 hcheck
  have hpat1 : (create_appointment Fault.ok s0 pd1 d1 sl1 c1 i1 pl1).2.patients
      = s0.patients ++ [mkNewPatient s0 pd1] := by
    rw [hb]
    simp [bookSuccState, getOrCreatePatient, hmiss]
  have hnone := List.find?_eq_none.mp hmiss
  have hfound2 : (create_appointment Fault.ok s0 pd1 d1 sl1 c1 i1 pl1).2.patients.find?
      (fun p => p.cpf == pd2.cpf) = some (mkNewPatient s0 pd1) := by
    rw [hpat1, hcpf, List.find?_append]
    rw [hmiss]
    simp [mkNewPatient]
  refine ⟨?_, ?_, ?_⟩
  · rw [hpat1, List.filter_append]
    rw [List.filter_eq_nil_iff.mpr hnone]
    simp [mkNewPatient]
  · simp [getOrCreatePatient, hfound2, mkNewPatient]
  · exact book_patients_unchanged_of_found f2 _ pd2 d2 sl2 c2 i2 pl2
      (mkNewPatient s0 pd1) hfound2

/-- A second booking attempt carrying the same cpf as `pdA` but a different
profile. -/
def pdA2 : PatientData :=
  { name := "Maria S. Alves".toList, cpf := cpfA, date_of_birth := "1991-04-16".toList,
    email := some "maria@example.com".toList, phone := some "11999".toList,
    insurance_type := some "HEALTH_PLAN".toList }

/-- C6 witness: the dedup behaviour on the fresh store, with the second call
carrying a different profile for the same cpf. -/
theorem patient_dedup_first_write_wins_w :
    (create_appointment Fault.ok db0 pdA 7 101 "1".toList none none).2.patients.filter
      (fun p => p.cpf == pdA.cpf) = [mkNewPatient db0 pdA] ∧
    getOrCreatePatient (create_appointment Fault.ok db0 pdA 7 101 "1".toList none none).2 pdA2
      = (db0.next_patient_id, (create_appointment Fault.ok db0 pdA 7 101 "1".toList none none).2) ∧
    (create_appointment Fault.ok (create_appointment Fault.ok db0 pdA 7 101 "1".toList none none).2
      pdA2 7 101 "1".toList none none).2.patients
      = (create_appointment Fault.ok db0 pdA 7 101 "1".toList none none).2.patients :=
  patient_dedup_first_write_wins db0 pdA pdA2 Fault.ok 7 101 "1".toList none none
    7 101 "1".toList none none (by decide) (by decide) (by decide)

/-- C8 counterexample: for a booking with the phone field absent, the
created patient's phone placeholder is the empty string — the same value for
two different identity keys, and one that does not contain the identity key
— whereas the email placeholder does embed the key.  So not every missing
contact field defaults to a placeholder derived from the identity key. -/
theorem resolve_phone_default_counterexample :
    (mkNewPatient db0 pdA).phone = [] ∧
    (mkNewPatient db0 pdB).phone = (mkNewPatient db0 pdA).phone ∧
    pdA.cpf ≠ pdB.cpf ∧
    ¬ (pdA.cpf <:+: (mkNewPatient db0 pdA).phone) ∧
    (pdA.cpf <:+: (mkNewPatient db0 pdA).email) := by
  decide

/-- C8 (amended): when the cpf lookup misses, `_get_or_create_patient`
appends exactly one new row, and the defaults apply field by field,
independently of each other: a missing (or empty) email defaults to the
placeholder `paciente_<cpf>@clinica.com` synthesized from the identity key,
a missing (or empty) phone defaults to the empty string (a fixed
placeholder, not derived from the key), and the insurance category defaults
to `'PARTICULAR'` (the spec's PRIVATE_PAY) whenever the supplied value is
absent, empty, or not a member of the closed enumeration after upper-casing
and trimming — whatever the other profile fields hold. -/
theorem resolve_defaults (db : DB) (pd : PatientData)
    (hmiss : db.patients.find? (fun p => p.cpf == pd.cpf) = none) :
    getOrCreatePatient db pd
      = (db.next_patient_id,
         { db with patients := db.patients ++ [mkNewPatient db pd],
                   next_patient_id := db.next_patient_id + 1 }) ∧
    (pd.email = none ∨ pd.email = some [] →
      (mkNewPatient db pd).email
        = "paciente_".toList ++ pd.cpf ++ "@clinica.com".toList) ∧
    (pd.phone = none ∨ pd.phone = some [] → (mkNewPatient db pd).phone = []) ∧
    ((pd.insurance_type = none ∨ pd.insurance_type = some [] ∨
        pyStrip (upperStr (pd.insurance_type.getD [])) ∉ validInsuranceTypes) →
      (mkNewPatient db pd).insurance_type = particularStr) := by
  refine ⟨by simp [getOrCreatePatient, hmiss], ?_, ?_, ?_⟩
  · rintro (h | h) <;> simp [mkNewPatient, pyOr, h]
  · rintro (h | h) <;> simp [mkNewPatient, pyOr, h]
  · rintro (h | h | h)
    · simp [mkNewPatient, normalizeInsurance, h]
    · simp [mkNewPatient, normalizeInsurance, h]
    · show normalizeInsurance pd.insurance_type = particularStr
      cases hv : pd.insurance_type with
      | none => rfl
      | some s =>
        rw [hv] at h
        simp only [normalizeInsurance]
        by_cases hs : s = []
        · simp [hs]
        · simp only [hs, if_false]
          rw [if_neg (by simpa using h)]

/-- A booking profile with only some fields missing: no email, but a phone
and an (invalid) insurance value are supplied. -/
def pdMixed : PatientData :=
  { name := "Carlos Lima".toList, cpf := "55566677788".toList,
    date_of_birth := "1975-07-07".toList, email := none,
    phone := some "11988887777".toList, insurance_type := some "convenio".toList }

/-- C8 witness: the per-field defaults exercised independently — on
`pdMixed` the email defaults and the invalid insurance falls back to
`'PARTICULAR'` although a phone was supplied, and on `pdA` the missing
phone defaults to the empty string. -/
theorem resolve_defaults_w :
    getOrCreatePatient db0 pdMixed
      = (db0.next_patient_id,
         { db0 with patients := db0.patients ++ [mkNewPatient db0 pdMixed],
                    next_patient_id := db0.next_patient_id + 1 }) ∧
    (mkNewPatient db0 pdMixed).email
      = "paciente_".toList ++ pdMixed.cpf ++ "@clinica.com".toList ∧
    (mkNewPatient db0 pdMixed).insurance_type = particularStr ∧
    (mkNewPatient db0 pdA).phone = [] :=
  ⟨(resolve_defaults db0 pdMixed (by decide)).1,
   (resolve_defaults db0 pdMixed (by decide)).2.1 (Or.inl (by decide)),
   (resolve_defaults db0 pdMixed (by decide)).2.2.2 (Or.inr (Or.inr (by decide))),
   (resolve_defaults db0 pdA (by decide)).2.2.1 (Or.inl (by decide))⟩

lemma confirmedFor_append_singleton {l : List Appointment} {x a : Appointment} {sid : Nat}
    (h : ConfirmedFor (l ++ [x]) sid a) : ConfirmedFor l sid a ∨ a = x := by
  obtain ⟨hmem, hslot, hstat⟩ := h
  rcases List.mem_append.mp hmem with hm | hm
  · exact Or.inl ⟨hm, hslot, hstat⟩
  · exact Or.inr (by simpa using hm)

lemma checkSlotAvailable_witness (db : DB) (slot_id : Nat)
    (hcheck : checkSlotAvailable db slot_id = true) :
    ∃ srow, db.slots.find? (fun s => s.id == slot_id) = some srow ∧
      srow.is_available = true := by
  revert hcheck
  unfold checkSlotAvailable
  cases hfind : db.slots.find? (fun s => s.id == slot_id) with
  | none => intro h; exact absurd h (by simp)
  | some s => intro h; exact ⟨s, rfl, h⟩

lemma JInv_bookSucc (db : DB) (pd : PatientData) (doctor_id slot_id : Nat)
    (clinic_id : Str) (ins : Option Str) (plan : Option Nat)
    (hI : I1 db) (hids : apptIdsOK db)
    (hcheck : checkSlotAvailable db slot_id = true) :
    I1 (bookSuccState db pd doctor_id slot_id clinic_id ins plan) ∧
    apptIdsOK (bookSuccState db pd doctor_id slot_id clinic_id ins plan) := by
  obtain ⟨srow, hfind, havail⟩ := checkSlotAvailable_witness db slot_id hcheck
  have hsrow_mem : srow ∈ db.slots := List.mem_of_find?_eq_some hfind
  have hsrow_id : srow.id = slot_id := by
    have hp := List.find?_some hfind
    simpa using hp
  have hnoconf : ¬ ∃ a : Appointment, ConfirmedFor db.appointments slot_id a := by
    rintro ⟨a, ha⟩
    have hiff := (hI srow hsrow_mem).2
    rw [hsrow_id] at hiff
    have hh : srow.is_available = false := hiff.mpr ⟨a, ha⟩
    rw [havail] at hh
    exact absurd hh (by simp)
  constructor
  · intro s' hs'
    have hs'' : s' ∈ db.slots.map (fun s =>
        if s.id == slot_id then { s with is_available := false } else s) := hs'
    rw [List.mem_map] at hs''
    obtain ⟨s, hsmem, hgs⟩ := hs''
    have happts : (bookSuccState db pd doctor_id slot_id clinic_id ins plan).appointments
        = db.appointments ++ [bookedAppt db pd doctor_id slot_id clinic_id ins plan] := rfl
    rw [happts]
    by_cases hid : (s.id == slot_id) = true
    · have hs'eq : s' = { s with is_available := false } := by rw [← hgs, if_pos hid]
      have hs'id : s'.id = slot_id := by rw [hs'eq]; simpa using hid
      rw [hs'id]
      constructor
      · intro a1 a2 h1 h2
        rcases confirmedFor_append_singleton h1 with hc1 | he1
        · exact absurd ⟨a1, hc1⟩ hnoconf
        · rcases confirmedFor_append_singleton h2 with hc2 | he2
          · exact absurd ⟨a2, hc2⟩ hnoconf
          · rw [he1, he2]
      · refine ⟨fun _ => ⟨bookedAppt db pd doctor_id slot_id clinic_id ins plan,
          List.mem_append_right _ (List.mem_singleton_self _), rfl, rfl⟩, fun _ => ?_⟩
        rw [hs'eq]
    · have hsne : s.id ≠ slot_id := by simpa using hid
      have hs'eq : s' = s := by rw [← hgs, if_neg hid]
      subst hs'eq
      have htrans : ∀ a : Appointment,
          ConfirmedFor (db.appointments ++
            [bookedAppt db pd doctor_id slot_id clinic_id ins plan]) s'.id a
          ↔ ConfirmedFor db.appointments s'.id a := by
        intro a
        constructor
        · intro h
          rcases confirmedFor_append_singleton h with hc | heq
          · exact hc
          · exfalso
            rw [heq] at h
            exact hsne h.2.1.symm
        · intro h
          exact ⟨List.mem_append_left _ h.1, h.2.1, h.2.2⟩
      obtain ⟨hu, hiff⟩ := hI s' hsmem
      refine ⟨fun a1 a2 h1 h2 => hu a1 a2 ((htrans a1).mp h1) ((htrans a2).mp h2), ?_, ?_⟩
      · intro hfalse
        obtain ⟨a, ha⟩ := hiff.mp hfalse
        exact ⟨a, (htrans a).mpr ha⟩
      · rintro ⟨a, ha⟩
        exact hiff.mpr ⟨a, (htrans a).mp ha⟩
  · obtain ⟨hnd, hbound⟩ := hids
    constructor
    · show ((db.appointments ++
        [bookedAppt db pd doctor_id slot_id clinic_id ins plan]).map Appointment.id).Nodup
      rw [List.map_append, List.nodup_append]
      refine ⟨hnd, List.nodup_singleton _, ?_⟩
      intro x hx hx2
      have hxeq : x = db.next_appointment_id := by simpa using hx2
      subst hxeq
      rw [List.mem_map] at hx
      obtain ⟨a, ham, haid⟩ := hx
      exact absurd haid (Nat.ne_of_lt (hbound a ham))
    · intro a ha
      rcases List.mem_append.mp
        (show a ∈ db.appointments ++
          [bookedAppt db pd doctor_id slot_id clinic_id ins plan] from ha) with h | h
      · exact Nat.lt_trans (hbound a h) (Nat.lt_succ_self _)
      · have he : a = bookedAppt db pd doctor_id slot_id clinic_id ins plan := by
          simpa using h
        rw [he]
        exact Nat.lt_succ_self _

/-- The per-row update of the cancel `UPDATE appointments` statement. -/
def cancelUpd (aid clock : Nat) (reason : Option Str) : Appointment → Appointment :=
  fun a =>
    if a.id == aid then
      { a with status := AppointmentStatus.CANCELLED, cancelled_at := some clock,
               cancellation_reason := reason }
    else a

lemma JInv_cancelSucc (db : DB) (aid : Nat) (reason : Option Str) (a0 : Appointment)
    (hfind : db.appointments.find? (fun a => a.id == aid) = some a0)
    (hconf : a0.status = AppointmentStatus.CONFIRMED)
    (hI : I1 db) (hids : apptIdsOK db) :
    I1 (cancelSuccState db aid reason a0) ∧
    apptIdsOK (cancelSuccState db aid reason a0) := by
  have ha0mem : a0 ∈ db.appointments := List.mem_of_find?_eq_some hfind
  have ha0id : a0.id = aid := by
    have hp := List.find?_some hfind
    simpa using hp
  obtain ⟨hnd, hbound⟩ := hids
  have hinj := List.inj_on_of_nodup_map hnd
  have heqa0 : ∀ x ∈ db.appointments, x.id = aid → x = a0 := by
    intro x hx hxe
    exact hinj hx ha0mem (by rw [hxe, ha0id])
  have happts : (cancelSuccState db aid reason a0).appointments
      = db.appointments.map (cancelUpd aid db.clock reason) := rfl
  have hfwd : ∀ (sid : Nat) (a : Appointment),
      ConfirmedFor (db.appointments.map (cancelUpd aid db.clock reason)) sid a →
      ConfirmedFor db.appointments sid a ∧ a.id ≠ aid := by
    intro sid a h
    obtain ⟨hmem, hslot, hstat⟩ := h
    rw [List.mem_map] at hmem
    obtain ⟨x, hx, hfx⟩ := hmem
    by_cases hxid : (x.id == aid) = true
    · exfalso
      have hcanc : a.status = AppointmentStatus.CANCELLED := by
        rw [← hfx]
        simp [cancelUpd, hxid]
      rw [hcanc] at hstat
      exact absurd hstat (by decide)
    · have hfx' : a = x := by
        rw [← hfx]
        simp [cancelUpd, hxid]
      subst hfx'
      exact ⟨⟨hx, hslot, hstat⟩, by simpa using hxid⟩
  have hbwd : ∀ (sid : Nat) (a : Appointment),
      ConfirmedFor db.appointments sid a → a.id ≠ aid →
      ConfirmedFor (db.appointments.map (cancelUpd aid db.clock reason)) sid a := by
    intro sid a h hne
    refine ⟨?_, h.2.1, h.2.2⟩
    rw [List.mem_map]
    have hb : (a.id == aid) = false := by simpa using hne
    exact ⟨a, h.1, by simp [cancelUpd, hb]⟩
  constructor
  · intro s' hs'
    have hs'' : s' ∈ db.slots.map (fun s =>
        if s.id == a0.slot_id then { s with is_available := true } else s) := hs'
    rw [List.mem_map] at hs''
    obtain ⟨s, hsmem, hgs⟩ := hs''
    rw [happts]
    by_cases hid : (s.id == a0.slot_id) = true
    · have hs'eq : s' = { s with is_available := true } := by rw [← hgs, if_pos hid]
      have hs'id : s'.id = a0.slot_id := by rw [hs'eq]; simpa using hid
      have hnone : ¬ ∃ a : Appointment,
          ConfirmedFor (db.appointments.map (cancelUpd aid db.clock reason)) s'.id a := by
        rintro ⟨a, ha⟩
        obtain ⟨hconf_a, hne⟩ := hfwd s'.id a ha
        have ha0conf : ConfirmedFor db.appointments s'.id a0 := ⟨ha0mem, by rw [hs'id], hconf⟩
        have hsid : s.id = s'.id := by rw [hs'id]; simpa using hid
        rw [← hsid] at hconf_a ha0conf
        have he : a = a0 := (hI s hsmem).1 a a0 hconf_a ha0conf
        rw [he] at hne
        exact hne ha0id
      refine ⟨fun a1 a2 h1 h2 => absurd ⟨a1, h1⟩ hnone, ?_, ?_⟩
      · intro hfalse
        exfalso
        rw [hs'eq] at hfalse
        simp at hfalse
      · rintro ⟨a, ha⟩
        exact absurd ⟨a, ha⟩ hnone
    · have hsne : s.id ≠ a0.slot_id := by simpa using hid
      have hs'eq : s' = s := by rw [← hgs, if_neg hid]
      subst hs'eq
      have htrans : ∀ a : Appointment,
          ConfirmedFor (db.appointments.map (cancelUpd aid db.clock reason)) s'.id a
          ↔ ConfirmedFor db.appointments s'.id a := by
        intro a
        constructor
        · intro h
          exact (hfwd s'.id a h).1
        · intro h
          refine hbwd s'.id a h ?_
          intro hae
          have he : a = a0 := heqa0 a h.1 hae
          rw [he] at h
          exact hsne h.2.1.symm
      obtain ⟨hu, hiff⟩ := hI s' hsmem
      refine ⟨fun a1 a2 h1 h2 => hu a1 a2 ((htrans a1).mp h1) ((htrans a2).mp h2), ?_, ?_⟩
      · intro hfalse
        obtain ⟨a, ha⟩ := hiff.mp hfalse
        exact ⟨a, (htrans a).mpr ha⟩
      · rintro ⟨a, ha⟩
        exact hiff.mpr ⟨a, (htrans a).mp ha⟩
  · have hids_eq : ((db.appointments.map (cancelUpd aid db.clock reason)).map
        Appointment.id) = db.appointments.map Appointment.id := by
      rw [List.map_map]
      have hcomp : (Appointment.id ∘ cancelUpd aid db.clock reason) = Appointment.id := by
        funext x
        by_cases hx : (x.id == aid) = true <;> simp [cancelUpd, Function.comp, hx]
      rw [hcomp]
    constructor
    · show ((db.appointments.map (cancelUpd aid db.clock reason)).map Appointment.id).Nodup
      rw [hids_eq]
      exact hnd
    · intro a ha
      have ha' : a ∈ db.appointments.map (cancelUpd aid db.clock reason) := ha
      rw [List.mem_map] at ha'
      obtain ⟨x, hx, hfx⟩ := ha'
      have hxa : a.id = x.id := by
        rw [← hfx]
        by_cases hxid : (x.id == aid) = true <;> simp [cancelUpd, hxid]
      show a.id < db.next_appointment_id
      rw [hxa]
      exact hbound x hx

lemma JInv_step (db : DB) (op : Op) (hI : I1 db) (hids : apptIdsOK db)
    (hok : okOp db op = true) : I1 (applyOp db op) ∧ apptIdsOK (applyOp db op) := by
  cases op with
  | book f pd d sid c i pl =>
    simp only [applyOp]
    rcases book_result_cases f db pd d sid c i pl with h | ⟨_, hcheck, h⟩
    · rw [h]
      exact ⟨hI, hids⟩
    · rw [h]
      exact JInv_bookSucc db pd d sid c i pl hI hids hcheck
  | cancel aid r =>
    simp only [applyOp]
    cases hfind : db.appointments.find? (fun a => a.id == aid) with
    | none =>
      rw [cancel_notfound_eq db aid r hfind]
      exact ⟨hI, hids⟩
    | some a0 =>
      have hok' : a0.status = AppointmentStatus.CONFIRMED := by
        simp only [okOp, hfind] at hok
        simpa using hok
      rw [cancel_found_eq db aid r a0 hfind]
      exact JInv_cancelSucc db aid r a0 hfind hok' hI hids

lemma JInv_run : ∀ (ops : List Op) (db : DB), I1 db → apptIdsOK db →
    legalOps db ops = true → I1 (runOps db ops) ∧ apptIdsOK (runOps db ops)
  | [], _, hI, hids, _ => ⟨hI, hids⟩
  | op :: ops, db, hI, hids, hleg => by
    rw [runOps]
    simp only [legalOps, Bool.and_eq_true] at hleg
    obtain ⟨h1, h2⟩ := JInv_step db op hI hids hleg.1
    exact JInv_run ops (applyOp db op) h1 h2 hleg.2

lemma I1_of_init (db : DB) (h : initStateOK db) : I1 db := by
  intro s hs
  have havail := h.1 s hs
  have hnoconf : ¬ ∃ a : Appointment, ConfirmedFor db.appointments s.id a := by
    rintro ⟨a, ha⟩
    exact h.2.1 a ha.1 ha.2.2
  refine ⟨fun a1 a2 h1 h2 => absurd ⟨a1, h1⟩ hnoconf, ?_, ?_⟩
  · intro hf
    rw [havail] at hf
    exact absurd hf (by simp)
  · rintro ⟨a, ha⟩
    exact absurd ⟨a, ha⟩ hnoconf

/-- C1 (amended): invariant I1 is preserved by every sequence of book and
cancel operations from a state where each slot is AVAILABLE, no CONFIRMED
appointment exists and appointment ids are unique and below the serial
sequence — provided cancel is never invoked on an id whose appointment is
already CANCELLED (the code has no AlreadyCancelled guard, and replaying a
cancel breaks I1, see the counterexample). -/
theorem i1_preserved_by_runs (db : DB) (ops : List Op)
    (hinit : initStateOK db) (hleg : legalOps db ops = true) :
    I1 (runOps db ops) :=
  (JInv_run ops db (I1_of_init db hinit) ⟨hinit.2.2.1, hinit.2.2.2⟩ hleg).1

/-- A legal sequence: book slot 101, cancel the appointment, book it again. -/
def opsGood : List Op :=
  [Op.book Fault.ok pdA 7 101 "1".toList none none,
   Op.cancel 1 (some "remarcar".toList),
   Op.book Fault.ok pdB 7 101 "1".toList none none]

/-- C1 witness: the amended preservation theorem applied to the fresh store
and a concrete legal book–cancel–book sequence. -/
theorem i1_preserved_by_runs_w : I1 (runOps db0 opsGood) :=
  i1_preserved_by_runs db0 opsGood ⟨by decide, by decide, by decide, by decide⟩
    (by decide)

lemma i1FlagViolation_sound (db : DB) (h : i1FlagViolation db = true) : ¬ I1 db := by
  intro hI
  simp only [i1FlagViolation, List.any_eq_true, Bool.and_eq_true] at h
  obtain ⟨s, hs, havail, a, ha, hslot, hstat⟩ := h
  have hiff := (hI s hs).2
  have hfalse : s.is_available = false :=
    hiff.mpr ⟨a, ha, by simpa using hslot, by simpa using hstat⟩
  rw [havail] at hfalse
  exact absurd hfalse (by simp)

/-- Book, first cancel, re-book, then replay the first cancel. -/
def opsBad : List Op :=
  [Op.book Fault.ok pdA 7 101 "1".toList none none,
   Op.cancel 1 (some "remarcar".toList),
   Op.book Fault.ok pdB 7 101 "1".toList none none,
   Op.cancel 1 (some "de novo".toList)]

/-- C1 counterexample: from a fresh state satisfying the claim's initial
condition (every slot AVAILABLE, no appointment at all), the sequence
book–cancel–book–cancel, whose last step replays the cancel of the already-
CANCELLED appointment 1, frees slot 101 while appointment 2 is still
CONFIRMED on it: I1 fails after this sequence of book and cancel calls. -/
theorem i1_not_preserved_counterexample :
    (∀ s ∈ db0.slots, s.is_available = true) ∧ db0.appointments = [] ∧
    i1FlagViolation (runOps db0 opsBad) = true ∧
    ¬ I1 (runOps db0 opsBad) :=
  ⟨by decide, rfl, by decide, i1FlagViolation_sound _ (by decide)⟩
